import Mathlib

/-!
Shallow embedding of `src/app.py` (Shopify store auditor).

The app is a linear pipeline: fetch a store page, extract fields from the
parsed HTML, build a prompt, call a generative model, strip code fences from
its reply, parse the reply as JSON, inject affiliate links, and render the
result on screen and as a .docx file.

External libraries are modelled at their observable interface:
 * the HTML parse tree produced by BeautifulSoup is modelled as `HtmlDoc`,
   a record of exactly the queries the code performs on the soup;
 * the HTTP layer is modelled as a `FetchResult` argument (status + parsed
   document, or a raised exception's message);
 * the generative-model call is modelled as a `ModelOutcome` argument;
 * `json.loads` is modelled by an executable JSON reader over characters
   (restricted to integer numerals; the schema in the prompt only uses
   integers) whose failure messages follow the CPython format
   `"... : line L column C (char N)"`;
 * Python `str.strip`, `str.replace`, `str.startswith`, substring tests and
   dictionary access are modelled charwise over `List Char` (ASCII
   whitespace, which covers every literal appearing in the program).

Python exceptions are modelled with `PyErr`; a `try/except` block becomes a
`match` on an `Except PyErr` value, and code with no enclosing handler
propagates the error (an uncaught exception, i.e. a crash).
-/

/-- ASCII whitespace, as stripped by Python `str.strip()` on the strings
this program handles. -/
def isWsC (c : Char) : Bool := c == ' ' || c == '\t' || c == '\n' || c == '\r'

/-- Left strip: drop leading whitespace. -/
def trimL (cs : List Char) : List Char := cs.dropWhile isWsC

/-- Right strip, implemented by reversing. -/
def trimR (cs : List Char) : List Char := (trimL cs.reverse).reverse

/-- Python `str.strip()` over characters. -/
def pyStrip (cs : List Char) : List Char := trimR (trimL cs)

/-- Python `str.strip()` on strings. -/
def pyStripStr (s : String) : String := String.mk (pyStrip s.toList)

/-- Python substring test `needle in hay` over characters. -/
def listHasSub (needle : List Char) : List Char → Bool
  | [] => needle.isEmpty
  | c :: t => needle.isPrefixOf (c :: t) || listHasSub needle t

/-- Python substring test `needle in hay` on strings. -/
def pyInS (needle hay : String) : Bool := listHasSub needle.toList hay.toList

/-- Python `s.startswith(pre)`. -/
def pyStartsWithS (s pre : String) : Bool := pre.toList.isPrefixOf s.toList

/-- One pass of Python `str.replace`: replace every non-overlapping
occurrence of `pat` left to right.  The `Nat` argument counts characters
still to be skipped after a match (the matched region minus the head). -/
def replaceAllAux (pat rep : List Char) : Nat → List Char → List Char
  | _, [] => []
  | k, c :: cs =>
    match k with
    | Nat.succ k' => replaceAllAux pat rep k' cs
    | 0 =>
      if pat.isPrefixOf (c :: cs) && !pat.isEmpty then
        rep ++ replaceAllAux pat rep (pat.length - 1) cs
      else
        c :: replaceAllAux pat rep 0 cs

/-- Python `s.replace(pat, rep)` on strings. -/
def pyReplaceS (s pat rep : String) : String :=
  String.mk (replaceAllAux pat.toList rep.toList 0 s.toList)

/-- Python string slice `s[:n]` (by code points). -/
def strTakeS (n : Nat) (s : String) : String := String.mk (s.toList.take n)

/-- Python `s.lower()` charwise (ASCII suffices for every literal in this
program). -/
def pyLowerS (s : String) : String := String.mk (s.toList.map Char.toLower)

/-- The backtick character (avoids a char literal in code positions). -/
def btick : Char := Char.ofNat 96

/-- Python truthiness of an `Optional[str]`: `None` and `""` are falsy. -/
def pyTruthyStrOpt : Option String → Bool
  | none => false
  | some s => !(s == "")

/-- Python exceptions the program can raise or catch. -/
inductive PyErr where
  | keyError (k : String)
  | typeError (msg : String)
  | attributeError (msg : String)
  | valueError (msg : String)
deriving DecidableEq

/-- Python `str(e)` for the exceptions above (a `KeyError` prints its key in
quotes). -/
def pyStrErr : PyErr → String
  | .keyError k => "'" ++ k ++ "'"
  | .typeError m => m
  | .attributeError m => m
  | .valueError m => m

/-- JSON values, as produced by `json.loads` (numbers restricted to the
integers, which is all the advertised schema uses). -/
inductive Json where
  | null
  | bool (b : Bool)
  | num (n : Int)
  | str (s : String)
  | arr (elems : List Json)
  | obj (kvs : List (String × Json))

mutual

/-- Python `==` on JSON values. -/
def jsonBeq : Json → Json → Bool
  | .null, .null => true
  | .bool a, .bool b => a == b
  | .num a, .num b => a == b
  | .str a, .str b => a == b
  | .arr a, .arr b => jsonBeqL a b
  | .obj a, .obj b => jsonBeqKV a b
  | _, _ => false

def jsonBeqL : List Json → List Json → Bool
  | [], [] => true
  | a :: as, b :: bs => jsonBeq a b && jsonBeqL as bs
  | _, _ => false

def jsonBeqKV : List (String × Json) → List (String × Json) → Bool
  | [], [] => true
  | (ka, va) :: as, (kb, vb) :: bs => ka == kb && jsonBeq va vb && jsonBeqKV as bs
  | _, _ => false

end

/-- `audit[k]`: subscript access on a parsed JSON value.  On a dictionary a
missing key raises `KeyError`; on any non-dictionary a string subscript
raises `TypeError` (as in Python for lists, strings and scalars). -/
def jGet (j : Json) (k : String) : Except PyErr Json :=
  match j with
  | .obj kvs =>
    match kvs.find? (fun kv => kv.1 == k) with
    | some kv => .ok kv.2
    | none => .error (.keyError k)
  | _ => .error (.typeError ("'" ++ k ++ "' subscript on a non-dict value"))

/-- `k in j` restricted to dictionaries: does the key occur? (`false` on
non-dictionaries; the faithful Python membership test is `pyContains`). -/
def hasKey (k : String) (j : Json) : Bool :=
  match j with
  | .obj kvs => kvs.any (fun kv => kv.1 == k)
  | _ => false

/-- Python `k in j` on a parsed JSON value: key test on dicts, membership on
lists, substring test on strings, `TypeError` on scalars. -/
def pyContains (k : String) (j : Json) : Except PyErr Bool :=
  match j with
  | .obj kvs => .ok (kvs.any (fun kv => kv.1 == k))
  | .arr xs => .ok (xs.any (fun x => jsonBeq x (.str k)))
  | .str s => .ok (pyInS k s)
  | _ => .error (.typeError "argument of type 'int' is not iterable")

/-- `j.get(k)` on a dictionary: `none` when the key is absent. -/
def jGetOpt (j : Json) (k : String) : Option Json :=
  match j with
  | .obj kvs => (kvs.find? (fun kv => kv.1 == k)).map (fun kv => kv.2)
  | _ => none

/-- `j[k] = v` on a dictionary: replace in place when the key exists,
append otherwise (Python dict insertion order); identity on non-dicts
(the embedding only applies it to dicts). -/
def setVal (j : Json) (k : String) (v : Json) : Json :=
  match j with
  | .obj kvs =>
    if kvs.any (fun kv => kv.1 == k) then
      .obj (kvs.map (fun kv => if kv.1 == k then (kv.1, v) else kv))
    else
      .obj (kvs ++ [(k, v)])
  | other => other

/-- Python `for x in j`: lists yield elements, strings yield their
characters, dicts yield their keys, scalars raise `TypeError`. -/
def pyIter (j : Json) : Except PyErr (List Json) :=
  match j with
  | .arr xs => .ok xs
  | .str s => .ok (s.toList.map (fun c => Json.str (String.mk [c])))
  | .obj kvs => .ok (kvs.map (fun kv => Json.str kv.1))
  | _ => .error (.typeError "'int' object is not iterable")

/-- JSON insignificant whitespace (what `json.loads` skips). -/
def isWsJ (c : Char) : Bool := c == ' ' || c == '\t' || c == '\n' || c == '\r'

/-- Skip whitespace, tracking the absolute character position. -/
def skipWsP : List Char → Nat → List Char × Nat
  | [], p => ([], p)
  | c :: cs, p => if isWsJ c then skipWsP cs (p + 1) else (c :: cs, p)

/-- CPython `json` error location rendering: `line L column C (char N)`. -/
def jsonLineCol (full : List Char) (pos : Nat) : String :=
  let upTo := full.take pos
  let line := 1 + (upTo.filter (fun c => c == '\n')).length
  let col := 1 + (upTo.reverse.takeWhile (fun c => !(c == '\n'))).length
  "line " ++ toString line ++ " column " ++ toString col ++
    " (char " ++ toString pos ++ ")"

/-- Value of a JSON string escape character, when legal. -/
def escChar (e : Char) : Option Char :=
  if e == '"' then some '"'
  else if e == '\\' then some '\\'
  else if e == '/' then some '/'
  else if e == 'b' then some (Char.ofNat 8)
  else if e == 'f' then some (Char.ofNat 12)
  else if e == 'n' then some '\n'
  else if e == 'r' then some '\r'
  else if e == 't' then some '\t'
  else none

/-- Hexadecimal digit value. -/
def hexVal (c : Char) : Option Nat :=
  if c.isDigit then some (c.toNat - 48)
  else if 97 ≤ c.toNat && c.toNat ≤ 102 then some (c.toNat - 87)
  else if 65 ≤ c.toNat && c.toNat ≤ 70 then some (c.toNat - 55)
  else none

/-- Read the body of a JSON string after the opening quote; `startPos` is the
position just after that quote. -/
def parseStrChars (full : List Char) (startPos : Nat) :
    List Char → Nat → Except PyErr (List Char × List Char × Nat)
  | [], _ =>
    .error (.valueError ("Unterminated string starting at: " ++
      jsonLineCol full (startPos - 1)))
  | c :: cs, p =>
    if c == '"' then .ok ([], cs, p + 1)
    else if c == '\\' then
      match cs with
      | [] =>
        .error (.valueError ("Unterminated string starting at: " ++
          jsonLineCol full (startPos - 1)))
      | e :: cs' =>
        if e == 'u' then
          match cs' with
          | h1 :: h2 :: h3 :: h4 :: cs'' =>
            match hexVal h1, hexVal h2, hexVal h3, hexVal h4 with
            | some a, some b, some c3, some d =>
              match parseStrChars full startPos cs'' (p + 6) with
              | .error er => .error er
              | .ok (acc, r, q) =>
                .ok (Char.ofNat (((a * 16 + b) * 16 + c3) * 16 + d) :: acc, r, q)
            | _, _, _, _ =>
              .error (.valueError ("Invalid \\uXXXX escape: " ++ jsonLineCol full p))
          | _ => .error (.valueError ("Invalid \\uXXXX escape: " ++ jsonLineCol full p))
        else
          match escChar e with
          | some d =>
            match parseStrChars full startPos cs' (p + 2) with
            | .error er => .error er
            | .ok (acc, r, q) => .ok (d :: acc, r, q)
          | none => .error (.valueError ("Invalid \\escape: " ++ jsonLineCol full p))
    else
      match parseStrChars full startPos cs (p + 1) with
      | .error er => .error er
      | .ok (acc, r, q) => .ok (c :: acc, r, q)

/-- Read a maximal run of decimal digits. -/
def parseDigits : List Char → Nat → List Char × List Char × Nat
  | [], p => ([], [], p)
  | c :: cs, p =>
    if c.isDigit then
      let (ds, r, q) := parseDigits cs (p + 1)
      (c :: ds, r, q)
    else ([], c :: cs, p)

/-- Numeric value of a digit run. -/
def digitsVal (ds : List Char) : Nat :=
  ds.foldl (fun a c => a * 10 + (c.toNat - 48)) 0

mutual

/-- Read one JSON value at position `p`.  Fueled to make the mutual
recursion structural; `parseJson` supplies ample fuel. -/
def parseJsonV (full : List Char) : Nat → List Char → Nat →
    Except PyErr (Json × List Char × Nat)
  | 0, _, p => .error (.valueError ("Expecting value: " ++ jsonLineCol full p))
  | Nat.succ f, cs, p =>
    match cs with
    | [] => .error (.valueError ("Expecting value: " ++ jsonLineCol full p))
    | c :: rest =>
      if c == '"' then
        match parseStrChars full (p + 1) rest (p + 1) with
        | .error e => .error e
        | .ok (content, r, q) => .ok (.str (String.mk content), r, q)
      else if c == '{' then
        let (r1, p1) := skipWsP rest (p + 1)
        match r1 with
        | '}' :: r2 => .ok (.obj [], r2, p1 + 1)
        | _ =>
          match parseObjItems full f r1 p1 with
          | .error e => .error e
          | .ok (kvs, r, q) => .ok (.obj kvs, r, q)
      else if c == '[' then
        let (r1, p1) := skipWsP rest (p + 1)
        match r1 with
        | ']' :: r2 => .ok (.arr [], r2, p1 + 1)
        | _ =>
          match parseArrItems full f r1 p1 with
          | .error e => .error e
          | .ok (xs, r, q) => .ok (.arr xs, r, q)
      else if c == 't' then
        match rest with
        | 'r' :: 'u' :: 'e' :: r2 => .ok (.bool true, r2, p + 4)
        | _ => .error (.valueError ("Expecting value: " ++ jsonLineCol full p))
      else if c == 'f' then
        match rest with
        | 'a' :: 'l' :: 's' :: 'e' :: r2 => .ok (.bool false, r2, p + 5)
        | _ => .error (.valueError ("Expecting value: " ++ jsonLineCol full p))
      else if c == 'n' then
        match rest with
        | 'u' :: 'l' :: 'l' :: r2 => .ok (.null, r2, p + 4)
        | _ => .error (.valueError ("Expecting value: " ++ jsonLineCol full p))
      else if c == '-' then
        match parseDigits rest (p + 1) with
        | ([], _, _) => .error (.valueError ("Expecting value: " ++ jsonLineCol full p))
        | (ds, r, q) => .ok (.num (-(Int.ofNat (digitsVal ds))), r, q)
      else if c.isDigit then
        let (ds, r, q) := parseDigits (c :: rest) p
        .ok (.num (Int.ofNat (digitsVal ds)), r, q)
      else .error (.valueError ("Expecting value: " ++ jsonLineCol full p))

/-- Read object members starting at a property name (whitespace already
skipped, `{` consumed, first member known not to be an immediate `}`).
Consumes the closing `}`. -/
def parseObjItems (full : List Char) : Nat → List Char → Nat →
    Except PyErr (List (String × Json) × List Char × Nat)
  | 0, _, p =>
    .error (.valueError ("Expecting property name enclosed in double quotes: " ++
      jsonLineCol full p))
  | Nat.succ f, cs, p =>
    match cs with
    | '"' :: rest =>
      match parseStrChars full (p + 1) rest (p + 1) with
      | .error e => .error e
      | .ok (key, r1, p1) =>
        let (r2, p2) := skipWsP r1 p1
        match r2 with
        | ':' :: r3 =>
          let (r4, p4) := skipWsP r3 (p2 + 1)
          match parseJsonV full f r4 p4 with
          | .error e => .error e
          | .ok (v, r5, p5) =>
            let (r6, p6) := skipWsP r5 p5
            match r6 with
            | ',' :: r7 =>
              let (r8, p8) := skipWsP r7 (p6 + 1)
              match parseObjItems full f r8 p8 with
              | .error e => .error e
              | .ok (kvs, r9, p9) => .ok ((String.mk key, v) :: kvs, r9, p9)
            | '}' :: r7 => .ok ([(String.mk key, v)], r7, p6 + 1)
            | _ => .error (.valueError ("Expecting ',' delimiter: " ++ jsonLineCol full p6))
        | _ => .error (.valueError ("Expecting ':' delimiter: " ++ jsonLineCol full p2))
    | _ =>
      .error (.valueError ("Expecting property name enclosed in double quotes: " ++
        jsonLineCol full p))

/-- Read array elements starting at a value (whitespace skipped, `[`
consumed, first element known not to be an immediate `]`).  Consumes the
closing `]`. -/
def parseArrItems (full : List Char) : Nat → List Char → Nat →
    Except PyErr (List Json × List Char × Nat)
  | 0, _, p => .error (.valueError ("Expecting value: " ++ jsonLineCol full p))
  | Nat.succ f, cs, p =>
    match parseJsonV full f cs p with
    | .error e => .error e
    | .ok (v, r1, p1) =>
      let (r2, p2) := skipWsP r1 p1
      match r2 with
      | ',' :: r3 =>
        let (r4, p4) := skipWsP r3 (p2 + 1)
        match parseArrItems full f r4 p4 with
        | .error e => .error e
        | .ok (xs, r5, p5) => .ok (v :: xs, r5, p5)
      | ']' :: r3 => .ok ([v], r3, p2 + 1)
      | _ => .error (.valueError ("Expecting ',' delimiter: " ++ jsonLineCol full p2))

end

/-- `json.loads`: read one value surrounded by optional whitespace; any
trailing non-whitespace is `Extra data`. -/
def parseJson (s : String) : Except PyErr Json :=
  let cs := s.toList
  let (r0, p0) := skipWsP cs 0
  match parseJsonV cs (2 * cs.length + 4) r0 p0 with
  | .error e => .error e
  | .ok (v, rest, p1) =>
    let (r2, p2) := skipWsP rest p1
    match r2 with
    | [] => .ok v
    | _ => .error (.valueError ("Extra data: " ++ jsonLineCol cs p2))

/-!  ## `scrape_shopify_store` (src/app.py lines 128-168)  -/

/-- The observable result of BeautifulSoup's parse of the fetched HTML:
exactly the queries `scrape_shopify_store` performs.
 * `titleTag`: `soup.title` — `none` when no `<title>` element exists;
   `some ts` carries `soup.title.string`, itself optional (`.string` is
   `None` for an empty or multi-child title).
 * `metaDesc`: the first `<meta name="description">` element — the inner
   option is its `content` attribute, which the element may lack.
 * `headings`: every heading element in document order as (level, text),
   covering `soup.find_all('h1')` / `find_all('h2')`.
 * `imgAlts`: the `alt` attribute of each `<img>`, `none` when absent.
 * `textNodes`: the visible text fragments behind `soup.get_text`. -/
structure HtmlDoc where
  titleTag : Option (Option String)
  metaDesc : Option (Option String)
  headings : List (Nat × String)
  imgAlts : List (Option String)
  textNodes : List String

/-- The dict returned on a successful scrape (the `PageSnapshot`). -/
structure Snapshot where
  url : String
  title : Option String
  description : String
  h1_tags : List String
  h2_tags : List String
  image_stats : String
  body : String

/-- `[h.get_text().strip() for h in soup.find_all('h<n>')]`. -/
def hTexts (lvl : Nat) (doc : HtmlDoc) : List String :=
  (doc.headings.filter (fun p => p.1 == lvl)).map (fun p => pyStripStr p.2)

/-- `soup.get_text(separator=' ', strip=True)`: strip each fragment, drop
the empty ones, join with single spaces. -/
def pageTextOf (doc : HtmlDoc) : String :=
  String.intercalate " " ((doc.textNodes.map pyStripStr).filter (fun s => !(s == "")))

/-- `meta['content'] if meta else "No Meta Description"`: a present element
without a `content` attribute raises `KeyError('content')`. -/
def descOf : Option (Option String) → Except PyErr String
  | none => .ok "No Meta Description"
  | some (some c) => .ok c
  | some none => .error (.keyError "content")

/-- `f"{missing_alt} out of {total_images} images are missing description
tags (Alt Text)."` where an image is missing alt text when the attribute is
absent or the empty string. -/
def imageStatsOf (alts : List (Option String)) : String :=
  let missing := (alts.filter (fun a => a == none || a == some "")).length
  toString missing ++ " out of " ++ toString alts.length ++
    " images are missing description tags (Alt Text)."

/-- The field-extraction part of `scrape_shopify_store` (lines 140-166),
run on a 200 response body; the one raising operation is `meta['content']`. -/
def extractFields (url : String) (doc : HtmlDoc) : Except PyErr Snapshot :=
  match descOf doc.metaDesc with
  | .error e => .error e
  | .ok desc =>
    .ok { url := url
          title := match doc.titleTag with
                   | some ts => ts
                   | none => some "No Title"
          description := desc
          h1_tags := hTexts 1 doc
          h2_tags := (hTexts 2 doc).take 6
          image_stats := imageStatsOf doc.imgAlts
          body := strTakeS 5000 (pageTextOf doc) }

/-- URL normalization (lines 132-134): strip, then prepend `https://` when
the result does not start with the literal `"http"`. -/
def normalizeUrl (url : String) : String :=
  let u := pyStripStr url
  if pyStartsWithS u "http" then u else "https://" ++ u

/-- Whether a URL string carries a scheme (a `://` separator), the notion
the specification's input constraint speaks about. -/
def hasScheme (u : String) : Bool := pyInS "://" u

/-- What `requests.get` delivered: a response (status code plus parsed
body) or a raised network exception's message. -/
inductive FetchResult where
  | resp (status : Nat) (doc : HtmlDoc)
  | raised (msg : String)

/-- `scrape_shopify_store` (lines 128-168): the returned
`(data, error)` pair, with the outer `try/except` catching every `PyErr`
as `"Scraping Error: " ++ str(e)`. -/
def scrapeWith (url : String) (fr : FetchResult) : Option Snapshot × Option String :=
  match fr with
  | .raised msg => (none, some ("Scraping Error: " ++ msg))
  | .resp status doc =>
    if status = 200 then
      match extractFields (normalizeUrl url) doc with
      | .ok snap => (some snap, none)
      | .error e => (none, some ("Scraping Error: " ++ pyStrErr e))
    else
      (none, some ("Could not load site (Status: " ++ toString status ++ ")"))

/-- The generate-button handler's first branch (lines 376-384): the AI stage
`analyze_store_json` runs exactly when `error` is falsy. -/
def callsAI (r : Option Snapshot × Option String) : Bool := !(pyTruthyStrOpt r.2)

/-!  ## `analyze_store_json` (src/app.py lines 170-279)  -/

/-- The affiliate-links table (lines 19-26), in insertion order. -/
def APP_LINKS : List (String × String) :=
  [("Plug In SEO", "https://pluginseo.com?ref=YOUR_REF_ID"),
   ("Klaviyo", "https://klaviyo.com/partner/YOUR_REF_ID"),
   ("Judge.me", "https://judge.me/ref/YOUR_REF_ID"),
   ("Loox", "https://loox.io/app/YOUR_REF_ID"),
   ("Privy", "https://privy.com/ref/YOUR_REF_ID"),
   ("ReConvert", "https://reconvert.io/?ref=YOUR_REF_ID")]

/-- The fallback Shopify app-store search link (line 267). -/
def defaultLink (appName : String) : String :=
  "https://apps.shopify.com/search?q=" ++ pyReplaceS appName " " "%20"

/-- First table entry whose key is a case-insensitive substring of the tool
name (lines 272-275; first match wins via `break`). -/
def lookupAffiliate (appName : String) : Option String :=
  (APP_LINKS.find? (fun kv => pyInS (pyLowerS kv.1) (pyLowerS appName))).map (fun kv => kv.2)

/-- The link injected for a tool name: the matched affiliate URL, else the
search fallback. -/
def linkFor (appName : String) : String :=
  (lookupAffiliate appName).getD (defaultLink appName)

/-- Process one entry of `recommended_stack` (lines 264-275): read
`item.get('tool', '')` and set `item['link']`.  Non-dict items and non-string
tool names raise `AttributeError`, as `.get` / `.replace` / `.lower` do. -/
def injectItem (item : Json) : Except PyErr Json :=
  match item with
  | .obj _ =>
    match jGetOpt item "tool" with
    | some (.str name) => .ok (setVal item "link" (.str (linkFor name)))
    | none => .ok (setVal item "link" (.str (linkFor "")))
    | some _ => .error (.attributeError "'int' object has no attribute 'replace'")
  | _ => .error (.attributeError "'str' object has no attribute 'get'")

/-- The affiliate-injection pass over the parsed audit (lines 263-275).
When `recommended_stack` holds a list its items are mutated in place;
iterating any other present value either raises or (when empty) leaves the
audit unchanged. -/
def injectLinks (audit : Json) : Except PyErr Json :=
  if hasKey "recommended_stack" audit then
    match jGetOpt audit "recommended_stack" with
    | some (.arr items) =>
      match items.mapM injectItem with
      | .error e => .error e
      | .ok items2 => .ok (setVal audit "recommended_stack" (.arr items2))
    | some other =>
      match pyIter other with
      | .error e => .error e
      | .ok elems =>
        match elems.mapM injectItem with
        | .error e => .error e
        | .ok _ => .ok audit
    | none => .ok audit
  else .ok audit

/-- Code-fence stripping (line 258):
`response.text.strip().replace('```json', '').replace('```', '')`. -/
def stripFences (s : String) : String :=
  pyReplaceS (pyReplaceS (pyStripStr s) "```json" "") "```" ""

/-- What the `model.generate_content` call produced: response text, or a
raised provider exception's message. -/
inductive ModelOutcome where
  | ok (text : String)
  | raised (msg : String)

/-- `analyze_store_json`'s response handling (lines 256-279): strip fences,
parse, inject links; any exception in the `try` block — provider failure,
parse failure or injection failure — becomes `{"error": str(e)}`. -/
def analyzeStore (m : ModelOutcome) : Json :=
  match m with
  | .raised msg => .obj [("error", .str msg)]
  | .ok text =>
    match parseJson (stripFences text) with
    | .error e => .obj [("error", .str (pyStrErr e))]
    | .ok audit =>
      match injectLinks audit with
      | .error e => .obj [("error", .str (pyStrErr e))]
      | .ok audit2 => audit2

/-!  ## Report rendering: the UI block (lines 386-475) and
     `create_word_doc` (lines 282-361)  -/

/-- A rendered output element.  Presentation (styling, exact strings shown)
is out of scope; blocks record which value was placed where, which is what
the render-error claims are about. -/
inductive Block where
  | litHeading (level : Nat) (text : String)
  | litPara (text : String)
  | write (v : Json)
  | metric (label : String) (v : Json)
  | markdown (v : Json)
  | bullet (v : Json)
  | info (v : Json)
  | codeBlock (v : Json)
  | serviceBox (category tool service : Json)
  | tableRow (category tool service : Json)
  | scoreRun (v : Json)

/-- One of the four plain section renderings in the UI tabs
(title markdown, content write, improvements bullets). -/
def renderSec (sec : Json) : Except PyErr (List Block) := do
  let t ← jGet sec "title"
  let c ← jGet sec "content"
  let imps ← pyIter (← jGet sec "improvements")
  pure ([Block.markdown t, Block.write c] ++ imps.map Block.bullet)

/-- The on-screen report preview (lines 389-464), in execution order:
executive summary, health-score metric, tabs 1-4, tech stack, (the booking
button is a constant).  Every subscript is a fallible `jGet`; nothing
catches a failure. -/
def renderTabs (audit : Json) : Except PyErr (List Block) := do
  let es ← jGet audit "executive_summary"
  let sb ← jGet audit "score_breakdown"
  let sc ← jGet sb "score"
  let b1 ← renderSec (← jGet audit "section_1_branding")
  let b2 ← renderSec (← jGet audit "section_2_sales")
  let b3 ← renderSec (← jGet audit "section_3_conversion")
  let b4 ← renderSec (← jGet audit "section_4_audience")
  let s5 ← jGet audit "section_5_seo"
  let t5 ← jGet s5 "title"
  let c5 ← jGet s5 "content"
  let ai5 ← jGet s5 "ai_readiness"
  let tn5 ← jGet s5 "technical_notes"
  let imps5 ← pyIter (← jGet s5 "improvements")
  let s6 ← jGet audit "section_6_strategy"
  let t6 ← jGet s6 "title"
  let c6 ← jGet s6 "content"
  let stackItems ← pyIter (← jGet audit "recommended_stack")
  let sBlocks ← stackItems.mapM (fun item => do
    let cat ← jGet item "category"
    let tool ← jGet item "tool"
    let svc ← jGet item "service"
    pure (Block.serviceBox cat tool svc))
  pure ([Block.litHeading 2 "Executive Summary", Block.write es,
         Block.metric "Health Score" sc] ++ b1 ++ b2 ++ b3 ++ b4 ++
        [Block.markdown t5, Block.write c5, Block.info ai5, Block.codeBlock tn5] ++
        imps5.map Block.bullet ++
        [Block.markdown t6, Block.write c6] ++ sBlocks)

/-- One section of the .docx (lines 316-328): heading, content, the
technical sub-fields when `technical_notes` is present, improvement
bullets. -/
def docSec (sec : Json) : Except PyErr (List Block) := do
  let t ← jGet sec "title"
  let c ← jGet sec "content"
  let tech ← (match pyContains "technical_notes" sec with
    | .error e => Except.error e
    | .ok true => do
        let tn ← jGet sec "technical_notes"
        let ai ← jGet sec "ai_readiness"
        pure [Block.litHeading 2 "Technical Data", Block.write tn, Block.write ai]
    | .ok false => pure [])
  let imps ← pyIter (← jGet sec "improvements")
  pure ([Block.markdown t, Block.write c] ++ tech ++
        [Block.litHeading 3 "Recommended Improvements:"] ++ imps.map Block.bullet)

/-- `create_word_doc` (lines 282-361): title block, executive summary,
score, the six sections, the recommended-stack table, the fixed pitch
page.  Every subscript is fallible and uncaught. -/
def createWordDoc (audit : Json) (url : String) : Except PyErr (List Block) := do
  let es ← jGet audit "executive_summary"
  let sb ← jGet audit "score_breakdown"
  let sc ← jGet sb "score"
  let s1 ← jGet audit "section_1_branding"
  let s2 ← jGet audit "section_2_sales"
  let s3 ← jGet audit "section_3_conversion"
  let s4 ← jGet audit "section_4_audience"
  let s5 ← jGet audit "section_5_seo"
  let s6 ← jGet audit "section_6_strategy"
  let secBlocks ← [s1, s2, s3, s4, s5, s6].mapM docSec
  let stackItems ← pyIter (← jGet audit "recommended_stack")
  let rows ← stackItems.mapM (fun stack => do
    let cat ← jGet stack "category"
    let tool ← jGet stack "tool"
    let svc ← jGet stack "service"
    pure (Block.tableRow cat tool svc))
  pure ([Block.litHeading 0 "Inkroast Strategic Audit",
         Block.litPara ("Audited Site: " ++ url),
         Block.litHeading 1 "Executive Summary", Block.write es,
         Block.scoreRun sc] ++ secBlocks.flatten ++
        [Block.litHeading 1 "7. Recommended Tools & Services"] ++ rows ++
        [Block.litHeading 1 "Turn this Audit into Revenue"])

/-- What the operator sees after `analyze_store_json` returns. -/
inductive Outcome where
  | failMsg (s : String)
  | success (ui : List Block) (doc : List Block)
  | crashed (e : PyErr)

/-- The rest of the generate-button handler (lines 381-475): test
`"error" in audit`; on failure show the fixed message; otherwise run the
preview and then `create_word_doc`, with no exception handler — any raised
error crashes the script run. -/
def handleAudit (url : String) (audit : Json) : Outcome :=
  match pyContains "error" audit with
  | .error e => .crashed e
  | .ok true => .failMsg "Analysis failed. Please try again."
  | .ok false =>
    match renderTabs audit with
    | .error e => .crashed e
    | .ok ui =>
      match createWordDoc audit url with
      | .error e => .crashed e
      | .ok doc => .success ui doc

/-- The required top-level keys of the advertised report schema (the prompt,
lines 198-254, and every unconditional subscript in the renderers). -/
def requiredKeys : List String :=
  ["executive_summary", "score_breakdown", "section_1_branding",
   "section_2_sales", "section_3_conversion", "section_4_audience",
   "section_5_seo", "section_6_strategy", "recommended_stack"]

/-- All required top-level keys present. -/
def isValidReport (j : Json) : Bool := requiredKeys.all (fun k => hasKey k j)

/-- Did the handler reach the rendering stage (as opposed to reporting an
analysis failure)? -/
def isFailMsgO : Outcome → Bool
  | .failMsg _ => true
  | _ => false

/-- Did the handler complete the preview and the document? -/
def isSuccessO : Outcome → Bool
  | .success _ _ => true
  | _ => false

/-!  ## Concrete documents and reports used as test vectors  -/

/-- A page with no title, no meta description, no headings, no images. -/
def docW : HtmlDoc := ⟨none, none, [], [], []⟩

/-- A page whose `<meta name="description">` element lacks a `content`
attribute. -/
def docBadMeta : HtmlDoc := ⟨none, some none, [], [], []⟩

/-- A page with nine `<h2>` headings and nothing else. -/
def doc9 : HtmlDoc :=
  ⟨none, none,
   [(2, "a"), (2, "b"), (2, "c"), (2, "d"), (2, "e"),
    (2, "f"), (2, "g"), (2, "h"), (2, "i")], [], []⟩

/-- The snapshot extracted from `docW`. -/
def snapW : Snapshot :=
  { url := "https://example.com", title := some "No Title",
    description := "No Meta Description", h1_tags := [], h2_tags := [],
    image_stats := "0 out of 0 images are missing description tags (Alt Text).",
    body := "" }

/-- The snapshot extracted from `doc9`. -/
def snap9 : Snapshot :=
  { url := "u", title := some "No Title",
    description := "No Meta Description", h1_tags := [],
    h2_tags := ["a", "b", "c", "d", "e", "f"],
    image_stats := "0 out of 0 images are missing description tags (Alt Text).",
    body := "" }

/-- A schema-conformant plain section object. -/
def secJ (t : String) : Json :=
  .obj [("title", .str t), ("content", .str "c"),
        ("improvements", .arr [.str "i1", .str "i2"])]

/-- A schema-conformant SEO section object (with the two extra fields). -/
def sec5J : Json :=
  .obj [("title", .str "5. SEO & AI Visibility"), ("content", .str "c"),
        ("technical_notes", .str "tn"), ("ai_readiness", .str "ai"),
        ("improvements", .arr [.str "i1"])]

/-- A report carrying every required key with schema-conformant values. -/
def fullReport : Json :=
  .obj [("executive_summary", .str "es"),
        ("score_breakdown", .obj [("score", .num 8), ("reason", .str "r")]),
        ("section_1_branding", secJ "1"), ("section_2_sales", secJ "2"),
        ("section_3_conversion", secJ "3"), ("section_4_audience", secJ "4"),
        ("section_5_seo", sec5J), ("section_6_strategy", secJ "6"),
        ("recommended_stack",
         .arr [.obj [("category", .str "Email Marketing"),
                     ("tool", .str "Klaviyo"), ("service", .str "s")]])]

/-- `fullReport` with an additional top-level `"error"` key: still a
complete, renderable report. -/
def reportWithErrorKey : Json :=
  match fullReport with
  | .obj kvs => .obj (kvs ++ [("error", .str "harmless note")])
  | other => other

/-- The CPython `json` message for input that starts with no value. -/
def parseFailMsg : String := "Expecting value: line 1 column 1 (char 0)"

/-- The exact reading of claim C6: some contiguous heading-level set (1-2
or 1-3) and some fixed prefix length between 8 and 20 describe the
extractor's heading output on every document. -/
def headingClaimC6 : Prop :=
  ∃ levels : List Nat, (levels = [1, 2] ∨ levels = [1, 2, 3]) ∧
    ∃ cap : Nat, 8 ≤ cap ∧ cap ≤ 20 ∧
      ∀ url doc snap, extractFields url doc = Except.ok snap →
        snap.h1_tags ++ snap.h2_tags =
          ((doc.headings.filter (fun p => levels.contains p.1)).map
            (fun p => pyStripStr p.2)).take cap

/-- Did the handler end in an uncaught exception? -/
def isCrashedO : Outcome → Bool
  | .crashed _ => true
  | _ => false

/-!  ## Helper lemmas  -/

theorem except_bind_ok {ε α β : Type} (x : Except ε α) (f : α → Except ε β) (b : β)
    (h : x >>= f = Except.ok b) : ∃ a, x = Except.ok a ∧ f a = Except.ok b := by
  cases x with
  | error e => exact absurd h (by simp [Bind.bind, Except.bind])
  | ok a => exact ⟨a, rfl, h⟩

theorem jGet_ok_hasKey (j : Json) (k : String) (v : Json)
    (h : jGet j k = Except.ok v) : hasKey k j = true := by
  cases j with
  | obj kvs =>
    simp only [jGet] at h
    cases hf : kvs.find? (fun kv => kv.1 == k) with
    | none => rw [hf] at h; cases h
    | some kv =>
      have hmem := List.mem_of_find?_eq_some hf
      have hp := List.find?_some hf
      simp only [hasKey, List.any_eq_true]
      exact ⟨kv, hmem, hp⟩
  | null => cases h
  | bool b => cases h
  | num n => cases h
  | str s => cases h
  | arr xs => cases h

theorem strTakeS_length_le (n : Nat) (s : String) : (strTakeS n s).length ≤ n := by
  show (s.toList.take n).length ≤ n
  rw [List.length_take]
  exact Nat.min_le_left _ _

theorem append_ne_empty_right (a b : String) (h : b.length = 1) : a ++ b ≠ "" := by
  intro he
  have h2 := congrArg String.length he
  rw [String.length_append, h] at h2
  have h0 : ("" : String).length = 0 := rfl
  omega

/-!  ## Claim C3: scheme handling in the fetcher  -/

/-- Claim C3 as stated is false: `"httpbin.org"` has no scheme, yet the
fetcher requests it unprefixed, because the code tests
`url.startswith('http')`, not scheme presence. -/
theorem c3_counterexample :
    hasScheme "httpbin.org" = false ∧
    normalizeUrl "httpbin.org" = "httpbin.org" ∧
    normalizeUrl "httpbin.org" ≠ "https://" ++ "httpbin.org" := by
  refine ⟨by decide, rfl, by decide⟩

/-- Claim C3 amended: after stripping surrounding whitespace, the fetcher
prepends `https://` exactly when the input does not start with the literal
`"http"` (rather than exactly when a scheme is absent). -/
theorem c3_prefix_rule (url : String) :
    (pyStartsWithS (pyStripStr url) "http" = false →
      normalizeUrl url = "https://" ++ pyStripStr url) ∧
    (pyStartsWithS (pyStripStr url) "http" = true →
      normalizeUrl url = pyStripStr url) := by
  constructor <;> intro h <;> simp [normalizeUrl, h]

theorem c3_prefix_rule_witness :
    normalizeUrl " example.com " = "https://example.com" ∧
    normalizeUrl "http://shop.example" = "http://shop.example" := by
  constructor
  · exact ((c3_prefix_rule " example.com ").1 (by decide)).trans (by decide)
  · exact ((c3_prefix_rule "http://shop.example").2 (by decide)).trans (by decide)

/-!  ## Claim C4: non-200 responses halt the pipeline  -/

/-- Claim C4: a response with any status other than 200 makes
`scrape_shopify_store` return no snapshot and an error message carrying the
numeric status code, and the generate handler then never reaches
`analyze_store_json`. -/
theorem c4_nonok_status_halts (url : String) (status : Nat) (doc : HtmlDoc)
    (h : status ≠ 200) :
    scrapeWith url (FetchResult.resp status doc) =
      (none, some ("Could not load site (Status: " ++ toString status ++ ")")) ∧
    callsAI (scrapeWith url (FetchResult.resp status doc)) = false := by
  have h1 : scrapeWith url (FetchResult.resp status doc) =
      (none, some ("Could not load site (Status: " ++ toString status ++ ")")) := by
    simp [scrapeWith, h]
  refine ⟨h1, ?_⟩
  rw [h1]
  simp only [callsAI, pyTruthyStrOpt, Bool.not_not]
  rw [beq_eq_false_iff_ne]
  exact append_ne_empty_right _ ")" rfl

theorem c4_nonok_status_halts_witness :
    scrapeWith "example.com" (FetchResult.resp 404 docW) =
      (none, some "Could not load site (Status: 404)") ∧
    callsAI (scrapeWith "example.com" (FetchResult.resp 404 docW)) = false := by
  have h := c4_nonok_status_halts "example.com" 404 docW (by decide)
  exact ⟨h.1.trans (by rfl), h.2⟩

/-!  ## Claim C8: the body-text cap  -/

/-- Claim C8: every successfully extracted snapshot carries a body text of
at most 5000 characters. -/
theorem c8_body_capped (url : String) (doc : HtmlDoc) (snap : Snapshot)
    (h : extractFields url doc = Except.ok snap) : snap.body.length ≤ 5000 := by
  unfold extractFields at h
  cases hd : descOf doc.metaDesc with
  | error e => rw [hd] at h; cases h
  | ok d =>
    rw [hd] at h
    cases h
    exact strTakeS_length_le 5000 (pageTextOf doc)

theorem c8_body_capped_witness :
    extractFields "https://example.com" docW = Except.ok snapW ∧
    snapW.body.length ≤ 5000 :=
  ⟨rfl, c8_body_capped "https://example.com" docW snapW rfl⟩

/-!  ## Claim C9: affiliate-link injection  -/

/-- Claim C9: the tool name `"Klaviyo"` resolves to its APP_LINKS entry; any
tool name matching no table entry resolves to the Shopify app-store search
URL built from the name; and `injectItem` stores exactly `linkFor` under the
`link` key of a stack entry. -/
theorem c9_affiliate_links :
    linkFor "Klaviyo" = "https://klaviyo.com/partner/YOUR_REF_ID" ∧
    (∀ appName, lookupAffiliate appName = none →
      linkFor appName =
        "https://apps.shopify.com/search?q=" ++ pyReplaceS appName " " "%20") ∧
    injectItem (Json.obj [("tool", Json.str "Klaviyo")]) =
      Except.ok (Json.obj [("tool", Json.str "Klaviyo"),
        ("link", Json.str "https://klaviyo.com/partner/YOUR_REF_ID")]) := by
  refine ⟨by decide, ?_, rfl⟩
  intro appName h
  simp [linkFor, h, defaultLink]

theorem c9_affiliate_links_witness :
    linkFor "Klaviyo" = "https://klaviyo.com/partner/YOUR_REF_ID" ∧
    linkFor "FooBar Tool" = "https://apps.shopify.com/search?q=FooBar%20Tool" := by
  refine ⟨c9_affiliate_links.1, ?_⟩
  exact (c9_affiliate_links.2.1 "FooBar Tool" (by decide)).trans (by decide)

/-!  ## Claim C6: heading extraction  -/

/-- Claim C6 as stated is false: on a page with nine `<h2>` elements the
extractor keeps only six of them (`h2_tags[:6]`), while any prefix cap in
the claimed 8-20 range would keep at least eight; moreover `h1_tags` is
never truncated at all. -/
theorem c6_counterexample : ¬ headingClaimC6 := by
  rintro ⟨levels, hl, cap, h8, _, hall⟩
  have h := hall "u" doc9 snap9 rfl
  have hlen := congrArg List.length h
  rw [List.length_take] at hlen
  have h6 : (snap9.h1_tags ++ snap9.h2_tags).length = 6 := rfl
  rcases hl with rfl | rfl
  · have h9 : ((doc9.headings.filter (fun p => ([1, 2] : List Nat).contains p.1)).map
        (fun p => pyStripStr p.2)).length = 9 := rfl
    rw [h6, h9] at hlen
    omega
  · have h9 : ((doc9.headings.filter (fun p => ([1, 2, 3] : List Nat).contains p.1)).map
        (fun p => pyStripStr p.2)).length = 9 := rfl
    rw [h6, h9] at hlen
    omega

/-- Claim C6 amended: the extractor keeps the stripped texts of all `<h1>`
elements untruncated and the stripped texts of the first six `<h2>`
elements, each in document order. -/
theorem c6_heading_extraction (url : String) (doc : HtmlDoc) (snap : Snapshot)
    (h : extractFields url doc = Except.ok snap) :
    snap.h1_tags = hTexts 1 doc ∧
    snap.h2_tags = (hTexts 2 doc).take 6 ∧
    snap.h2_tags.length ≤ 6 := by
  unfold extractFields at h
  cases hd : descOf doc.metaDesc with
  | error e => rw [hd] at h; cases h
  | ok d =>
    rw [hd] at h
    cases h
    refine ⟨rfl, rfl, ?_⟩
    show ((hTexts 2 doc).take 6).length ≤ 6
    rw [List.length_take]
    exact Nat.min_le_left _ _

theorem c6_heading_extraction_witness :
    extractFields "u" doc9 = Except.ok snap9 ∧
    snap9.h1_tags = hTexts 1 doc9 ∧
    snap9.h2_tags = (hTexts 2 doc9).take 6 ∧
    snap9.h2_tags.length ≤ 6 :=
  ⟨rfl, c6_heading_extraction "u" doc9 snap9 rfl⟩

/-!  ## Claim C2: extraction totality  -/

/-- Claim C2 as stated is false: on HTML whose meta-description element has
no `content` attribute, the lookup `meta['content']` raises `KeyError`,
which the surrounding `try` turns into the error result — so the extraction
stage does have an error channel. -/
theorem c2_counterexample :
    extractFields "https://example.com" docBadMeta =
      Except.error (PyErr.keyError "content") ∧
    scrapeWith "example.com" (FetchResult.resp 200 docBadMeta) =
      (none, some "Scraping Error: 'content'") :=
  ⟨rfl, rfl⟩

/-- Claim C2 amended: extraction never raises — with every absent element
replaced by its fallback — for every document in which any present
meta-description element carries a `content` attribute. -/
theorem c2_extraction_total (url : String) (doc : HtmlDoc)
    (h : doc.metaDesc ≠ some none) :
    extractFields url doc = Except.ok
      { url := url
        title := match doc.titleTag with
                 | some ts => ts
                 | none => some "No Title"
        description := match doc.metaDesc with
                       | some (some c) => c
                       | _ => "No Meta Description"
        h1_tags := hTexts 1 doc
        h2_tags := (hTexts 2 doc).take 6
        image_stats := imageStatsOf doc.imgAlts
        body := strTakeS 5000 (pageTextOf doc) } ∧
    (scrapeWith url (FetchResult.resp 200 doc)).2 = none := by
  rcases hm : doc.metaDesc with _ | (_ | c)
  · constructor
    · unfold extractFields
      rw [hm]
      rfl
    · simp [scrapeWith, extractFields, hm, descOf]
  · exact absurd hm h
  · constructor
    · unfold extractFields
      rw [hm]
      rfl
    · simp [scrapeWith, extractFields, hm, descOf]

theorem c2_extraction_total_witness :
    extractFields "https://example.com" docW = Except.ok
      { url := "https://example.com"
        title := match docW.titleTag with
                 | some ts => ts
                 | none => some "No Title"
        description := match docW.metaDesc with
                       | some (some c) => c
                       | _ => "No Meta Description"
        h1_tags := hTexts 1 docW
        h2_tags := (hTexts 2 docW).take 6
        image_stats := imageStatsOf docW.imgAlts
        body := strTakeS 5000 (pageTextOf docW) } ∧
    (scrapeWith "https://example.com" (FetchResult.resp 200 docW)).2 = none :=
  c2_extraction_total "https://example.com" docW (by decide)

/-!  ## Claim C10: the `"error"` key is the sole success discriminator  -/

/-- Claim C10: on a parsed dictionary, the handler shows the analysis-failed
message exactly when the top-level key `"error"` is present — so a complete,
renderable report that happens to carry an `"error"` key is reported as a
failure and never rendered, while the same report without that key renders
successfully. -/
theorem c10_error_key_discriminates :
    (∀ kvs : List (String × Json),
      isFailMsgO (handleAudit "https://example.com" (Json.obj kvs)) =
        hasKey "error" (Json.obj kvs)) ∧
    isValidReport reportWithErrorKey = true ∧
    handleAudit "https://example.com" reportWithErrorKey =
      Outcome.failMsg "Analysis failed. Please try again." ∧
    isSuccessO (handleAudit "https://example.com" fullReport) = true := by
  refine ⟨?_, by decide, rfl, rfl⟩
  intro kvs
  unfold handleAudit
  have hc : pyContains "error" (Json.obj kvs) =
      Except.ok (hasKey "error" (Json.obj kvs)) := rfl
  rw [hc]
  cases hk : hasKey "error" (Json.obj kvs) with
  | true => rfl
  | false =>
    cases h1 : renderTabs (Json.obj kvs) with
    | error e => rfl
    | ok ui =>
      cases h2 : createWordDoc (Json.obj kvs) "https://example.com" with
      | error e => rfl
      | ok doc => rfl

/-!  ## Claim C7: the shape of analysis failures  -/

/-- Claim C7 as stated is false: a parse failure yields
`{"error": <decode message>}` — the raw unparsed text appears nowhere in
the result; the very same dictionary is produced by a provider failure
whose message coincides, so the two kinds are not distinguishable; and
structurally valid JSON missing every required key produces no error result
at all. -/
theorem c7_counterexample :
    analyzeStore (ModelOutcome.ok "not json") =
      Json.obj [("error", Json.str parseFailMsg)] ∧
    pyInS "not json" parseFailMsg = false ∧
    analyzeStore (ModelOutcome.raised parseFailMsg) =
      analyzeStore (ModelOutcome.ok "not json") ∧
    analyzeStore (ModelOutcome.ok "\x7b\x7d") = Json.obj [] :=
  ⟨rfl, by decide, rfl, rfl⟩

/-- Claim C7 amended: `analyze_store_json` collapses every failure to a
single-key dictionary `{"error": str(e)}` — for a provider failure the
provider message, for a parse failure the decoder's cause message only (no
raw response text, and no tag telling the two kinds apart). -/
theorem c7_error_result_shape :
    (∀ msg : String, analyzeStore (ModelOutcome.raised msg) =
      Json.obj [("error", Json.str msg)]) ∧
    (∀ text e, parseJson (stripFences text) = Except.error e →
      analyzeStore (ModelOutcome.ok text) =
        Json.obj [("error", Json.str (pyStrErr e))]) := by
  refine ⟨fun msg => rfl, fun text e h => ?_⟩
  simp only [analyzeStore]
  rw [h]

theorem c7_error_result_shape_witness :
    analyzeStore (ModelOutcome.raised "quota exceeded") =
      Json.obj [("error", Json.str "quota exceeded")] ∧
    analyzeStore (ModelOutcome.ok "oops") =
      Json.obj [("error", Json.str "Expecting value: line 1 column 1 (char 0)")] :=
  ⟨c7_error_result_shape.1 "quota exceeded",
   c7_error_result_shape.2 "oops"
     (PyErr.valueError "Expecting value: line 1 column 1 (char 0)") rfl⟩

/-!  ## Claim C1: missing required keys crash the renderers  -/

theorem renderTabs_ok_keys (audit : Json) (bs : List Block)
    (h : renderTabs audit = Except.ok bs) :
    ∀ k ∈ requiredKeys, hasKey k audit = true := by
  unfold renderTabs at h
  obtain ⟨es, h1, h⟩ := except_bind_ok _ _ _ h
  obtain ⟨sb, h2, h⟩ := except_bind_ok _ _ _ h
  obtain ⟨sc, _, h⟩ := except_bind_ok _ _ _ h
  obtain ⟨s1, h3, h⟩ := except_bind_ok _ _ _ h
  obtain ⟨b1, _, h⟩ := except_bind_ok _ _ _ h
  obtain ⟨s2, h4, h⟩ := except_bind_ok _ _ _ h
  obtain ⟨b2, _, h⟩ := except_bind_ok _ _ _ h
  obtain ⟨s3, h5, h⟩ := except_bind_ok _ _ _ h
  obtain ⟨b3, _, h⟩ := except_bind_ok _ _ _ h
  obtain ⟨s4, h6, h⟩ := except_bind_ok _ _ _ h
  obtain ⟨b4, _, h⟩ := except_bind_ok _ _ _ h
  obtain ⟨s5, h7, h⟩ := except_bind_ok _ _ _ h
  obtain ⟨t5, _, h⟩ := except_bind_ok _ _ _ h
  obtain ⟨c5, _, h⟩ := except_bind_ok _ _ _ h
  obtain ⟨ai5, _, h⟩ := except_bind_ok _ _ _ h
  obtain ⟨tn5, _, h⟩ := except_bind_ok _ _ _ h
  obtain ⟨i5, _, h⟩ := except_bind_ok _ _ _ h
  obtain ⟨imps5, _, h⟩ := except_bind_ok _ _ _ h
  obtain ⟨s6, h8, h⟩ := except_bind_ok _ _ _ h
  obtain ⟨t6, _, h⟩ := except_bind_ok _ _ _ h
  obtain ⟨c6, _, h⟩ := except_bind_ok _ _ _ h
  obtain ⟨stackV, h9, h⟩ := except_bind_ok _ _ _ h
  intro k hk
  simp only [requiredKeys, List.mem_cons, List.not_mem_nil, or_false] at hk
  rcases hk with rfl | rfl | rfl | rfl | rfl | rfl | rfl | rfl | rfl
  · exact jGet_ok_hasKey _ _ _ h1
  · exact jGet_ok_hasKey _ _ _ h2
  · exact jGet_ok_hasKey _ _ _ h3
  · exact jGet_ok_hasKey _ _ _ h4
  · exact jGet_ok_hasKey _ _ _ h5
  · exact jGet_ok_hasKey _ _ _ h6
  · exact jGet_ok_hasKey _ _ _ h7
  · exact jGet_ok_hasKey _ _ _ h8
  · exact jGet_ok_hasKey _ _ _ h9

/-- Claim C1 as stated is false: on an analysis result lacking
`executive_summary` the whole render block — the on-screen view as well as
`create_word_doc` — raises an uncaught `KeyError` (a crash), not a surfaced
failure message. -/
theorem c1_counterexample :
    hasKey "executive_summary" (Json.obj []) = false ∧
    handleAudit "https://example.com" (Json.obj []) =
      Outcome.crashed (PyErr.keyError "executive_summary") ∧
    createWordDoc (Json.obj []) "https://example.com" =
      Except.error (PyErr.keyError "executive_summary") :=
  ⟨rfl, rfl, rfl⟩

/-- Claim C1 amended: for every analysis result that escapes the
`"error"`-key test and is missing some required schema key, the render
stage ends in an uncaught exception — never in a surfaced failure message,
and never in a completed (blank-section) rendering. -/
theorem c1_missing_required_key_crashes (url : String) (audit : Json)
    (herr : pyContains "error" audit ≠ Except.ok true)
    (hmiss : ∃ k, k ∈ requiredKeys ∧ hasKey k audit = false) :
    isCrashedO (handleAudit url audit) = true ∧
    isFailMsgO (handleAudit url audit) = false := by
  obtain ⟨k, hk, hfalse⟩ := hmiss
  unfold handleAudit
  cases hc : pyContains "error" audit with
  | error e => exact ⟨rfl, rfl⟩
  | ok b =>
    cases b with
    | true => exact absurd hc herr
    | false =>
      cases ht : renderTabs audit with
      | error e => exact ⟨rfl, rfl⟩
      | ok ui =>
        have hall := renderTabs_ok_keys audit ui ht k hk
        rw [hall] at hfalse
        cases hfalse

theorem c1_missing_required_key_crashes_witness :
    isCrashedO (handleAudit "https://shop.example"
      (Json.obj [("executive_summary", Json.str "fine")])) = true ∧
    isFailMsgO (handleAudit "https://shop.example"
      (Json.obj [("executive_summary", Json.str "fine")])) = false :=
  c1_missing_required_key_crashes "https://shop.example"
    (Json.obj [("executive_summary", Json.str "fine")])
    (by intro hc; cases hc)
    ⟨"score_breakdown", by decide, rfl⟩

/-!  ## Claim C5: fence stripping  -/

theorem trimL_cons_of_ws (c : Char) (cs : List Char) (h : isWsC c = true) :
    trimL (c :: cs) = trimL cs := by
  simp [trimL, List.dropWhile_cons, h]

theorem trimL_cons_of_not (c : Char) (cs : List Char) (h : isWsC c = false) :
    trimL (c :: cs) = c :: cs := by
  simp [trimL, List.dropWhile_cons, h]

theorem trimL_idem (cs : List Char) : trimL (trimL cs) = trimL cs := by
  induction cs with
  | nil => rfl
  | cons c cs ih =>
    cases h : isWsC c with
    | false => rw [trimL_cons_of_not c cs h, trimL_cons_of_not c cs h]
    | true => rw [trimL_cons_of_ws c cs h]; exact ih

theorem trimL_head_not_ws (cs : List Char) (c : Char) (t : List Char)
    (h : trimL cs = c :: t) : isWsC c = false := by
  induction cs with
  | nil => cases h
  | cons a as ih =>
    cases ha : isWsC a with
    | false => rw [trimL_cons_of_not a as ha] at h; cases h; exact ha
    | true => rw [trimL_cons_of_ws a as ha] at h; exact ih h

theorem trimL_append_last (ys : List Char) (c : Char) (h : isWsC c = false) :
    ∃ w, trimL (ys ++ [c]) = w ++ [c] := by
  induction ys with
  | nil => exact ⟨[], by rw [List.nil_append]; exact trimL_cons_of_not c [] h⟩
  | cons y ys ih =>
    cases hy : isWsC y with
    | false => exact ⟨y :: ys, by rw [List.cons_append, trimL_cons_of_not y _ hy]⟩
    | true =>
      obtain ⟨w, hw⟩ := ih
      exact ⟨w, by rw [List.cons_append, trimL_cons_of_ws y _ hy]; exact hw⟩

theorem trimR_idem (cs : List Char) : trimR (trimR cs) = trimR cs := by
  unfold trimR
  rw [List.reverse_reverse, trimL_idem]

theorem trimL_of_trimR_trimL (cs : List Char) :
    trimL (trimR (trimL cs)) = trimR (trimL cs) := by
  cases hx : trimL cs with
  | nil => rfl
  | cons c t =>
    have hc := trimL_head_not_ws cs c t hx
    obtain ⟨w, hw⟩ := trimL_append_last t.reverse c hc
    have hr : trimR (c :: t) = c :: w.reverse := by
      unfold trimR
      rw [List.reverse_cons, hw, List.reverse_append]
      rfl
    rw [hr, trimL_cons_of_not c _ hc]

theorem pyStrip_idem (cs : List Char) : pyStrip (pyStrip cs) = pyStrip cs := by
  unfold pyStrip
  rw [trimL_of_trimR_trimL, trimR_idem]

theorem mem_trimL (c : Char) (cs : List Char) (h : c ∈ trimL cs) : c ∈ cs := by
  induction cs with
  | nil => cases h
  | cons a as ih =>
    cases ha : isWsC a with
    | false => rw [trimL_cons_of_not a as ha] at h; exact h
    | true =>
      rw [trimL_cons_of_ws a as ha] at h
      exact List.mem_cons_of_mem a (ih h)

theorem mem_pyStrip (c : Char) (cs : List Char) (h : c ∈ pyStrip cs) : c ∈ cs := by
  unfold pyStrip trimR at h
  have h1 := mem_trimL _ _ (List.mem_reverse.mp h)
  exact mem_trimL _ _ (List.mem_reverse.mp h1)

theorem replaceAllAux_clean (p rep cs : List Char) (hp : p.head? = some btick)
    (h : btick ∉ cs) : replaceAllAux p rep 0 cs = cs := by
  induction cs with
  | nil => rfl
  | cons c cs ih =>
    simp only [List.mem_cons, not_or] at h
    obtain ⟨h1, h2⟩ := h
    have hpre : p.isPrefixOf (c :: cs) = false := by
      cases p with
      | nil => cases hp
      | cons a as =>
        have ha : a = btick := by
          simp only [List.head?] at hp
          exact Option.some.inj hp
        subst ha
        have hb : (btick == c) = false := beq_eq_false_iff_ne.mpr h1
        simp [List.isPrefixOf, hb]
    simp only [replaceAllAux, hpre, Bool.false_and, Bool.false_eq_true, if_false]
    rw [ih h2]

theorem pyStripStr_toList (s : String) : (pyStripStr s).toList = pyStrip s.toList := rfl

theorem stripFences_eq_strip (s : String) (h : btick ∉ s.toList) :
    stripFences s = pyStripStr s := by
  have h1 : btick ∉ pyStrip s.toList := fun hm => h (mem_pyStrip _ _ hm)
  show pyReplaceS (pyReplaceS (pyStripStr s) "```json" "") "```" "" = pyStripStr s
  have e1 : pyReplaceS (pyStripStr s) "```json" "" = pyStripStr s := by
    show String.mk (replaceAllAux ("```json".toList) ("".toList) 0
      (pyStripStr s).toList) = pyStripStr s
    rw [pyStripStr_toList, replaceAllAux_clean _ _ _ (by rfl) h1]
    rfl
  rw [e1]
  show String.mk (replaceAllAux ("```".toList) ("".toList) 0
    (pyStripStr s).toList) = pyStripStr s
  rw [pyStripStr_toList, replaceAllAux_clean _ _ _ (by rfl) h1]
  rfl

theorem stripFences_idem_clean (s : String) (h : btick ∉ s.toList) :
    stripFences (stripFences s) = stripFences s := by
  rw [stripFences_eq_strip s h]
  have h2 : btick ∉ (pyStripStr s).toList := by
    rw [pyStripStr_toList]
    exact fun hm => h (mem_pyStrip _ _ hm)
  rw [stripFences_eq_strip _ h2]
  show String.mk (pyStrip (pyStripStr s).toList) = pyStripStr s
  rw [pyStripStr_toList, pyStrip_idem]
  rfl

/-- Claim C5 as stated is false: fence stripping begins with `.strip()`, so
it is not idempotent — stripping the spec's own fenced scenario twice
differs from stripping it once — and it is not the identity even on text
with no fence markers. -/
theorem c5_counterexample :
    stripFences (stripFences "```json\n\x7b\"score\": 7\x7d\n```") ≠
      stripFences "```json\n\x7b\"score\": 7\x7d\n```" ∧
    pyInS "```" " \x7b\"score\": 7\x7d " = false ∧
    stripFences " \x7b\"score\": 7\x7d " ≠ " \x7b\"score\": 7\x7d " := by
  refine ⟨by decide, by decide, by decide⟩

/-- Claim C5 amended: on backtick-free text fence stripping coincides with
`strip()` — hence it is idempotent there and is the identity exactly on the
strip-stable such texts — and on the advertised fenced scenario the
stripped text still parses to the same value as the unfenced payload
(whitespace being insignificant to the JSON reader). -/
theorem c5_strip_parse_roundtrip :
    (∀ s : String, btick ∉ s.toList →
      stripFences s = pyStripStr s ∧
      stripFences (stripFences s) = stripFences s ∧
      (pyStripStr s = s → stripFences s = s)) ∧
    parseJson (stripFences "```json\n\x7b\"score\": 7\x7d\n```") =
      Except.ok (Json.obj [("score", Json.num 7)]) ∧
    parseJson "\x7b\"score\": 7\x7d" =
      Except.ok (Json.obj [("score", Json.num 7)]) := by
  refine ⟨fun s h => ⟨stripFences_eq_strip s h, stripFences_idem_clean s h,
    fun hs => (stripFences_eq_strip s h).trans hs⟩, rfl, rfl⟩

theorem c5_strip_parse_roundtrip_witness :
    stripFences "  hello world  " = pyStripStr "  hello world  " ∧
    stripFences (stripFences "  hello world  ") = stripFences "  hello world  " ∧
    stripFences "hello" = "hello" := by
  have h1 := c5_strip_parse_roundtrip.1 "  hello world  " (by decide)
  have h2 := c5_strip_parse_roundtrip.1 "hello" (by decide)
  exact ⟨h1.1, h1.2.1, h2.2.2 (by decide)⟩
